import Mathlib

/-!
Shallow embedding of the `hono-aws-middlewares` library: three Hono
middleware adapters (`dynamoDBMiddleware` in `lib/dynamodb/index.ts`,
`s3Middleware` in `lib/s3/index.ts`, `secretsManagerMiddleware` in
`lib/secrets-manager/index.ts`).  Each adapter, per request, constructs two
AWS SDK handles from its closed-over configuration, publishes them into the
request context under two fixed names via `c.set`, awaits `next()`, and (for
the S3 and Secrets Manager adapters only) calls `destroy()` on both handles
afterwards.

Modelling choices:
- `ClientConfig` models the AWS SDK client configuration object (the fields
  the repository tests exercise: `region` and `endpoint`).
- `Handle` models one constructed SDK client object.  JS object identity is
  modelled by the tuple of backend, variant (service class vs low-level
  client class), the configuration it was built from, and the id of the
  request whose handler allocated it: each request runs the middleware body
  afresh, so objects allocated in distinct requests are distinct.
- `Context` models the Hono per-request variable map: `ctxSet` prepends a
  binding (newest binding shadows older ones, matching `c.set` followed by
  `c.get` returning the latest value), `ctxGet` returns the newest binding.
- The downstream stage `next` is modelled as a function from the context it
  observes to the (possibly mutated) context together with `Except ε Unit`:
  `Except.error e` models `await next()` throwing `e`, in which case the
  middleware code after the `await` does not run and the error propagates.
- Each run additionally records an `Event` trace (handle construction,
  `c.set` calls, the `next()` invocation, `destroy()` calls) so that the
  ordering and teardown behaviour of an invocation is observable.
-/

namespace HonoAws

/-- AWS SDK client configuration, as exercised by the repository. -/
structure ClientConfig where
  region : Option String
  endpoint : Option String
  deriving DecidableEq, Repr

/-- The empty configuration `{}`, the default argument of each factory. -/
def emptyClientConfig : ClientConfig := ⟨none, none⟩

/-- The three backends supported by the library. -/
inductive Backend
  | dynamoDB
  | s3
  | secretsManager
  deriving DecidableEq, Repr

/-- Each backend exposes a high-level service class and a low-level client
class (e.g. `S3` vs `S3Client`). -/
inductive Variant
  | service
  | client
  deriving DecidableEq, Repr

/-- One constructed SDK client object.  `reqId` is the id of the request
whose handler allocated it, modelling JS object freshness per request. -/
structure Handle where
  backend : Backend
  variant : Variant
  config : ClientConfig
  reqId : Nat
  deriving DecidableEq, Repr

/-- `new DynamoDB(config)` inside the handler of request `reqId`. -/
def mkDynamoDB (config : ClientConfig) (reqId : Nat) : Handle :=
  ⟨Backend.dynamoDB, Variant.service, config, reqId⟩

/-- `new DynamoDBClient(config)` inside the handler of request `reqId`. -/
def mkDynamoDBClient (config : ClientConfig) (reqId : Nat) : Handle :=
  ⟨Backend.dynamoDB, Variant.client, config, reqId⟩

/-- `new S3(config)` inside the handler of request `reqId`. -/
def mkS3 (config : ClientConfig) (reqId : Nat) : Handle :=
  ⟨Backend.s3, Variant.service, config, reqId⟩

/-- `new S3Client(config)` inside the handler of request `reqId`. -/
def mkS3Client (config : ClientConfig) (reqId : Nat) : Handle :=
  ⟨Backend.s3, Variant.client, config, reqId⟩

/-- `new SecretsManager(config)` inside the handler of request `reqId`. -/
def mkSecretsManager (config : ClientConfig) (reqId : Nat) : Handle :=
  ⟨Backend.secretsManager, Variant.service, config, reqId⟩

/-- `new SecretsManagerClient(config)` inside the handler of request `reqId`. -/
def mkSecretsManagerClient (config : ClientConfig) (reqId : Nat) : Handle :=
  ⟨Backend.secretsManager, Variant.client, config, reqId⟩

/-- The Hono per-request variable map, newest binding first. -/
abbrev Context := List (String × Handle)

/-- `c.set(name, h)`: the new binding shadows any older one. -/
def ctxSet (ctx : Context) (name : String) (h : Handle) : Context :=
  (name, h) :: ctx

/-- `c.get(name)`: the newest binding for `name`, `none` when absent. -/
def ctxGet (ctx : Context) (name : String) : Option Handle :=
  (ctx.find? (fun p => p.1 == name)).map (fun p => p.2)

/-- Observable events of one middleware invocation. -/
inductive Event
  | create (h : Handle)
  | setVar (name : String) (h : Handle)
  | callNext
  | destroy (h : Handle)
  deriving DecidableEq, Repr

/-- The downstream pipeline stage: from the context it observes to the
context as it leaves it, together with normal completion or a thrown error. -/
abbrev Next (ε : Type) := Context → Context × Except ε Unit

/-- Result of one middleware invocation: the context as passed to `next`,
the context after the invocation finishes (normally or by rethrow), the
event trace, and the outcome. -/
structure RunResult (ε : Type) where
  ctxAtNext : Context
  ctx : Context
  events : List Event
  result : Except ε Unit

/-- A downstream stage that leaves the context alone and completes. -/
def okNext (ε : Type) : Next ε := fun c => (c, Except.ok ())

/-- A downstream stage that leaves the context alone and throws `e`. -/
def failNext (ε : Type) (e : ε) : Next ε := fun c => (c, Except.error e)

/-- `dynamoDBMiddleware` (lib/dynamodb/index.ts): create `DynamoDB` and
`DynamoDBClient` from the captured config, `c.set` both, `await next()`.
No destroy step. -/
def dynamoDBMiddleware (ε : Type) (config : ClientConfig) (reqId : Nat)
    (c : Context) (next : Next ε) : RunResult ε :=
  let dynamoDB := mkDynamoDB config reqId
  let dynamoDBClient := mkDynamoDBClient config reqId
  let c2 := ctxSet (ctxSet c "DynamoDB" dynamoDB) "DynamoDBClient" dynamoDBClient
  let r := next c2
  { ctxAtNext := c2
    ctx := r.1
    events := [Event.create dynamoDB, Event.create dynamoDBClient,
               Event.setVar "DynamoDB" dynamoDB,
               Event.setVar "DynamoDBClient" dynamoDBClient,
               Event.callNext]
    result := r.2 }

/-- `s3Middleware` (lib/s3/index.ts): create `S3` and `S3Client` from the
captured config, `c.set` both, `await next()`, then destroy both instances.
When `next()` throws, the destroy lines do not run and the error
propagates. -/
def s3Middleware (ε : Type) (config : ClientConfig) (reqId : Nat)
    (c : Context) (next : Next ε) : RunResult ε :=
  let s3 := mkS3 config reqId
  let s3Client := mkS3Client config reqId
  let c2 := ctxSet (ctxSet c "S3" s3) "S3Client" s3Client
  match next c2 with
  | (c3, Except.ok _) =>
      { ctxAtNext := c2
        ctx := c3
        events := [Event.create s3, Event.create s3Client,
                   Event.setVar "S3" s3, Event.setVar "S3Client" s3Client,
                   Event.callNext, Event.destroy s3, Event.destroy s3Client]
        result := Except.ok () }
  | (c3, Except.error e) =>
      { ctxAtNext := c2
        ctx := c3
        events := [Event.create s3, Event.create s3Client,
                   Event.setVar "S3" s3, Event.setVar "S3Client" s3Client,
                   Event.callNext]
        result := Except.error e }

/-- `secretsManagerMiddleware` (lib/secrets-manager/index.ts): create
`SecretsManager` and `SecretsManagerClient` from the captured config,
`c.set` both, `await next()`, then destroy both instances.  When `next()`
throws, the destroy lines do not run and the error propagates. -/
def secretsManagerMiddleware (ε : Type) (config : ClientConfig) (reqId : Nat)
    (c : Context) (next : Next ε) : RunResult ε :=
  let secretsManager := mkSecretsManager config reqId
  let secretsManagerClient := mkSecretsManagerClient config reqId
  let c2 := ctxSet (ctxSet c "SecretsManager" secretsManager)
    "SecretsManagerClient" secretsManagerClient
  match next c2 with
  | (c3, Except.ok _) =>
      { ctxAtNext := c2
        ctx := c3
        events := [Event.create secretsManager, Event.create secretsManagerClient,
                   Event.setVar "SecretsManager" secretsManager,
                   Event.setVar "SecretsManagerClient" secretsManagerClient,
                   Event.callNext, Event.destroy secretsManager,
                   Event.destroy secretsManagerClient]
        result := Except.ok () }
  | (c3, Except.error e) =>
      { ctxAtNext := c2
        ctx := c3
        events := [Event.create secretsManager, Event.create secretsManagerClient,
                   Event.setVar "SecretsManager" secretsManager,
                   Event.setVar "SecretsManagerClient" secretsManagerClient,
                   Event.callNext]
        result := Except.error e }

/-- Handles on which `destroy()` was called during a run, in call order. -/
def destroyedOf : List Event → List Handle
  | [] => []
  | Event.destroy h :: es => h :: destroyedOf es
  | _ :: es => destroyedOf es

/-- Handles published into the context (`c.set`) during a run, in order. -/
def publishedOf : List Event → List Handle
  | [] => []
  | Event.setVar _ h :: es => h :: publishedOf es
  | _ :: es => publishedOf es

/-- Number of `next()` invocations recorded in a trace. -/
def callNextCount : List Event → Nat
  | [] => 0
  | Event.callNext :: es => callNextCount es + 1
  | _ :: es => callNextCount es

/-- The default argument of the `dynamoDBMiddleware` factory
(`config: DynamoDBClientConfig = {}`). -/
def dynamoDBDefaultConfig : ClientConfig := emptyClientConfig

/-- The default argument of the `s3Middleware` factory
(`config: S3ClientConfig = {}`). -/
def s3DefaultConfig : ClientConfig := emptyClientConfig

/-- The default argument of the `secretsManagerMiddleware` factory
(`config: SecretsManagerClientConfig = {}`). -/
def secretsManagerDefaultConfig : ClientConfig := emptyClientConfig

/-- `dynamoDBMiddleware()`: the factory called with no argument. -/
def dynamoDBMiddlewareNoArg (ε : Type) : Nat → Context → Next ε → RunResult ε :=
  dynamoDBMiddleware ε dynamoDBDefaultConfig

/-- `s3Middleware()`: the factory called with no argument. -/
def s3MiddlewareNoArg (ε : Type) : Nat → Context → Next ε → RunResult ε :=
  s3Middleware ε s3DefaultConfig

/-- `secretsManagerMiddleware()`: the factory called with no argument. -/
def secretsManagerMiddlewareNoArg (ε : Type) : Nat → Context → Next ε → RunResult ε :=
  secretsManagerMiddleware ε secretsManagerDefaultConfig

/-- Running a middleware as the downstream stage of another one, as Hono
composes middlewares registered on the same route. -/
def runAsNext (ε : Type)
    (mw : Nat → Context → Next ε → RunResult ε)
    (reqId : Nat) (next : Next ε) : Next ε :=
  fun c =>
    let r := mw reqId c next
    (r.ctx, r.result)

/-- All three adapters attached to the same route, in registration order
DynamoDB, S3, Secrets Manager, with a terminal handler that completes
normally; the result is the outermost invocation. -/
def chain3 (ε : Type) (cfgD cfgS cfgM : ClientConfig) (reqId : Nat)
    (c : Context) : RunResult ε :=
  dynamoDBMiddleware ε cfgD reqId c
    (runAsNext ε (s3Middleware ε cfgS) reqId
      (runAsNext ε (secretsManagerMiddleware ε cfgM) reqId (okNext ε)))

theorem ctxGet_ctxSet_same (ctx : Context) (name : String) (h : Handle) :
    ctxGet (ctxSet ctx name h) name = some h := by
  simp [ctxGet, ctxSet, List.find?]

theorem ctxGet_ctxSet_other (ctx : Context) (name nm : String) (h : Handle)
    (hne : nm ≠ name) : ctxGet (ctxSet ctx name h) nm = ctxGet ctx nm := by
  have hb : (name == nm) = false := by simp [Ne.symm hne]
  simp [ctxGet, ctxSet, List.find?, hb]

theorem ctxGet_mem (ctx : Context) (name : String) (h : Handle)
    (hg : ctxGet ctx name = some h) : (name, h) ∈ ctx := by
  induction ctx with
  | nil => simp [ctxGet] at hg
  | cons p l ih =>
    rcases p with ⟨nm, hd⟩
    by_cases he : nm = name
    · subst he
      simp [ctxGet, List.find?] at hg
      simp [hg]
    · have hb : (nm == name) = false := by simp [he]
      rw [show ctxGet ((nm, hd) :: l) name = ctxGet l name by
        simp [ctxGet, List.find?, hb]] at hg
      exact List.mem_cons_of_mem _ (ih hg)

theorem dynamoDB_ctxAtNext (ε : Type) (config : ClientConfig) (reqId : Nat)
    (c : Context) (next : Next ε) :
    (dynamoDBMiddleware ε config reqId c next).ctxAtNext
      = ctxSet (ctxSet c "DynamoDB" (mkDynamoDB config reqId))
          "DynamoDBClient" (mkDynamoDBClient config reqId) := rfl

theorem dynamoDB_ctx (ε : Type) (config : ClientConfig) (reqId : Nat)
    (c : Context) (next : Next ε) :
    (dynamoDBMiddleware ε config reqId c next).ctx
      = (next (dynamoDBMiddleware ε config reqId c next).ctxAtNext).1 := rfl

theorem dynamoDB_result (ε : Type) (config : ClientConfig) (reqId : Nat)
    (c : Context) (next : Next ε) :
    (dynamoDBMiddleware ε config reqId c next).result
      = (next (dynamoDBMiddleware ε config reqId c next).ctxAtNext).2 := rfl

theorem dynamoDB_events (ε : Type) (config : ClientConfig) (reqId : Nat)
    (c : Context) (next : Next ε) :
    (dynamoDBMiddleware ε config reqId c next).events
      = [Event.create (mkDynamoDB config reqId),
         Event.create (mkDynamoDBClient config reqId),
         Event.setVar "DynamoDB" (mkDynamoDB config reqId),
         Event.setVar "DynamoDBClient" (mkDynamoDBClient config reqId),
         Event.callNext] := rfl

theorem s3_ctxAtNext (ε : Type) (config : ClientConfig) (reqId : Nat)
    (c : Context) (next : Next ε) :
    (s3Middleware ε config reqId c next).ctxAtNext
      = ctxSet (ctxSet c "S3" (mkS3 config reqId))
          "S3Client" (mkS3Client config reqId) := by
  rcases hn : next (ctxSet (ctxSet c "S3" (mkS3 config reqId))
      "S3Client" (mkS3Client config reqId)) with ⟨c3, r⟩
  cases r <;> simp [s3Middleware, hn]

theorem s3_ctx (ε : Type) (config : ClientConfig) (reqId : Nat)
    (c : Context) (next : Next ε) :
    (s3Middleware ε config reqId c next).ctx
      = (next (s3Middleware ε config reqId c next).ctxAtNext).1 := by
  rw [s3_ctxAtNext]
  rcases hn : next (ctxSet (ctxSet c "S3" (mkS3 config reqId))
      "S3Client" (mkS3Client config reqId)) with ⟨c3, r⟩
  cases r <;> simp [s3Middleware, hn]

theorem s3_result (ε : Type) (config : ClientConfig) (reqId : Nat)
    (c : Context) (next : Next ε) :
    (s3Middleware ε config reqId c next).result
      = (next (s3Middleware ε config reqId c next).ctxAtNext).2 := by
  rw [s3_ctxAtNext]
  rcases hn : next (ctxSet (ctxSet c "S3" (mkS3 config reqId))
      "S3Client" (mkS3Client config reqId)) with ⟨c3, r⟩
  cases r <;> simp [s3Middleware, hn]

theorem s3_events_of_ok (ε : Type) (config : ClientConfig) (reqId : Nat)
    (c : Context) (next : Next ε)
    (hok : (s3Middleware ε config reqId c next).result = Except.ok ()) :
    (s3Middleware ε config reqId c next).events
      = [Event.create (mkS3 config reqId), Event.create (mkS3Client config reqId),
         Event.setVar "S3" (mkS3 config reqId),
         Event.setVar "S3Client" (mkS3Client config reqId),
         Event.callNext, Event.destroy (mkS3 config reqId),
         Event.destroy (mkS3Client config reqId)] := by
  rcases hn : next (ctxSet (ctxSet c "S3" (mkS3 config reqId))
      "S3Client" (mkS3Client config reqId)) with ⟨c3, r⟩
  cases r with
  | ok u => simp [s3Middleware, hn]
  | error e => simp [s3Middleware, hn] at hok

theorem s3_events_of_error (ε : Type) (config : ClientConfig) (reqId : Nat)
    (c : Context) (next : Next ε) (e : ε)
    (herr : (s3Middleware ε config reqId c next).result = Except.error e) :
    (s3Middleware ε config reqId c next).events
      = [Event.create (mkS3 config reqId), Event.create (mkS3Client config reqId),
         Event.setVar "S3" (mkS3 config reqId),
         Event.setVar "S3Client" (mkS3Client config reqId),
         Event.callNext] := by
  rcases hn : next (ctxSet (ctxSet c "S3" (mkS3 config reqId))
      "S3Client" (mkS3Client config reqId)) with ⟨c3, r⟩
  cases r with
  | ok u => simp [s3Middleware, hn] at herr
  | error eDown => simp [s3Middleware, hn]

theorem secretsManager_ctxAtNext (ε : Type) (config : ClientConfig) (reqId : Nat)
    (c : Context) (next : Next ε) :
    (secretsManagerMiddleware ε config reqId c next).ctxAtNext
      = ctxSet (ctxSet c "SecretsManager" (mkSecretsManager config reqId))
          "SecretsManagerClient" (mkSecretsManagerClient config reqId) := by
  rcases hn : next (ctxSet (ctxSet c "SecretsManager" (mkSecretsManager config reqId))
      "SecretsManagerClient" (mkSecretsManagerClient config reqId)) with ⟨c3, r⟩
  cases r <;> simp [secretsManagerMiddleware, hn]

theorem secretsManager_ctx (ε : Type) (config : ClientConfig) (reqId : Nat)
    (c : Context) (next : Next ε) :
    (secretsManagerMiddleware ε config reqId c next).ctx
      = (next (secretsManagerMiddleware ε config reqId c next).ctxAtNext).1 := by
  rw [secretsManager_ctxAtNext]
  rcases hn : next (ctxSet (ctxSet c "SecretsManager" (mkSecretsManager config reqId))
      "SecretsManagerClient" (mkSecretsManagerClient config reqId)) with ⟨c3, r⟩
  cases r <;> simp [secretsManagerMiddleware, hn]

theorem secretsManager_result (ε : Type) (config : ClientConfig) (reqId : Nat)
    (c : Context) (next : Next ε) :
    (secretsManagerMiddleware ε config reqId c next).result
      = (next (secretsManagerMiddleware ε config reqId c next).ctxAtNext).2 := by
  rw [secretsManager_ctxAtNext]
  rcases hn : next (ctxSet (ctxSet c "SecretsManager" (mkSecretsManager config reqId))
      "SecretsManagerClient" (mkSecretsManagerClient config reqId)) with ⟨c3, r⟩
  cases r <;> simp [secretsManagerMiddleware, hn]

theorem secretsManager_events_of_ok (ε : Type) (config : ClientConfig) (reqId : Nat)
    (c : Context) (next : Next ε)
    (hok : (secretsManagerMiddleware ε config reqId c next).result = Except.ok ()) :
    (secretsManagerMiddleware ε config reqId c next).events
      = [Event.create (mkSecretsManager config reqId),
         Event.create (mkSecretsManagerClient config reqId),
         Event.setVar "SecretsManager" (mkSecretsManager config reqId),
         Event.setVar "SecretsManagerClient" (mkSecretsManagerClient config reqId),
         Event.callNext, Event.destroy (mkSecretsManager config reqId),
         Event.destroy (mkSecretsManagerClient config reqId)] := by
  rcases hn : next (ctxSet (ctxSet c "SecretsManager" (mkSecretsManager config reqId))
      "SecretsManagerClient" (mkSecretsManagerClient config reqId)) with ⟨c3, r⟩
  cases r with
  | ok u => simp [secretsManagerMiddleware, hn]
  | error e => simp [secretsManagerMiddleware, hn] at hok

theorem secretsManager_events_of_error (ε : Type) (config : ClientConfig) (reqId : Nat)
    (c : Context) (next : Next ε) (e : ε)
    (herr : (secretsManagerMiddleware ε config reqId c next).result = Except.error e) :
    (secretsManagerMiddleware ε config reqId c next).events
      = [Event.create (mkSecretsManager config reqId),
         Event.create (mkSecretsManagerClient config reqId),
         Event.setVar "SecretsManager" (mkSecretsManager config reqId),
         Event.setVar "SecretsManagerClient" (mkSecretsManagerClient config reqId),
         Event.callNext] := by
  rcases hn : next (ctxSet (ctxSet c "SecretsManager" (mkSecretsManager config reqId))
      "SecretsManagerClient" (mkSecretsManagerClient config reqId)) with ⟨c3, r⟩
  cases r with
  | ok u => simp [secretsManagerMiddleware, hn] at herr
  | error eDown => simp [secretsManagerMiddleware, hn]

theorem dynamoDB_published (ε : Type) (config : ClientConfig) (reqId : Nat)
    (c : Context) (next : Next ε) :
    publishedOf (dynamoDBMiddleware ε config reqId c next).events
      = [mkDynamoDB config reqId, mkDynamoDBClient config reqId] := rfl

theorem s3_published (ε : Type) (config : ClientConfig) (reqId : Nat)
    (c : Context) (next : Next ε) :
    publishedOf (s3Middleware ε config reqId c next).events
      = [mkS3 config reqId, mkS3Client config reqId] := by
  rcases hn : next (ctxSet (ctxSet c "S3" (mkS3 config reqId))
      "S3Client" (mkS3Client config reqId)) with ⟨c3, r⟩
  cases r <;> simp [s3Middleware, hn, publishedOf]

theorem secretsManager_published (ε : Type) (config : ClientConfig) (reqId : Nat)
    (c : Context) (next : Next ε) :
    publishedOf (secretsManagerMiddleware ε config reqId c next).events
      = [mkSecretsManager config reqId, mkSecretsManagerClient config reqId] := by
  rcases hn : next (ctxSet (ctxSet c "SecretsManager" (mkSecretsManager config reqId))
      "SecretsManagerClient" (mkSecretsManagerClient config reqId)) with ⟨c3, r⟩
  cases r <;> simp [secretsManagerMiddleware, hn, publishedOf]

theorem chain3_ctx (ε : Type) (cfgD cfgS cfgM : ClientConfig) (reqId : Nat)
    (c : Context) :
    (chain3 ε cfgD cfgS cfgM reqId c).ctx
      = ctxSet (ctxSet (ctxSet (ctxSet (ctxSet (ctxSet c
          "DynamoDB" (mkDynamoDB cfgD reqId))
          "DynamoDBClient" (mkDynamoDBClient cfgD reqId))
          "S3" (mkS3 cfgS reqId))
          "S3Client" (mkS3Client cfgS reqId))
          "SecretsManager" (mkSecretsManager cfgM reqId))
          "SecretsManagerClient" (mkSecretsManagerClient cfgM reqId) := rfl

/-- C1: for every configuration (including the empty one), every request id,
every starting context and every downstream stage, each of the three
adapters publishes non-null handles under both of its two fixed literal
names before the downstream stage runs: the context passed to `next`
retrieves exactly the freshly constructed handles under those names. -/
theorem publishes_both_fixed_names (ε : Type) (config : ClientConfig)
    (reqId : Nat) (c : Context) (next : Next ε) :
    ctxGet (dynamoDBMiddleware ε config reqId c next).ctxAtNext "DynamoDB"
        = some (mkDynamoDB config reqId)
  ∧ ctxGet (dynamoDBMiddleware ε config reqId c next).ctxAtNext "DynamoDBClient"
        = some (mkDynamoDBClient config reqId)
  ∧ ctxGet (s3Middleware ε config reqId c next).ctxAtNext "S3"
        = some (mkS3 config reqId)
  ∧ ctxGet (s3Middleware ε config reqId c next).ctxAtNext "S3Client"
        = some (mkS3Client config reqId)
  ∧ ctxGet (secretsManagerMiddleware ε config reqId c next).ctxAtNext "SecretsManager"
        = some (mkSecretsManager config reqId)
  ∧ ctxGet (secretsManagerMiddleware ε config reqId c next).ctxAtNext "SecretsManagerClient"
        = some (mkSecretsManagerClient config reqId) := by
  refine ⟨?_, ?_, ?_, ?_, ?_, ?_⟩
  · rw [dynamoDB_ctxAtNext, ctxGet_ctxSet_other _ _ _ _ (by decide), ctxGet_ctxSet_same]
  · rw [dynamoDB_ctxAtNext, ctxGet_ctxSet_same]
  · rw [s3_ctxAtNext, ctxGet_ctxSet_other _ _ _ _ (by decide), ctxGet_ctxSet_same]
  · rw [s3_ctxAtNext, ctxGet_ctxSet_same]
  · rw [secretsManager_ctxAtNext, ctxGet_ctxSet_other _ _ _ _ (by decide),
      ctxGet_ctxSet_same]
  · rw [secretsManager_ctxAtNext, ctxGet_ctxSet_same]

/-- C2: for every request, when the downstream stage completes normally the
S3 and Secrets Manager adapters destroy exactly their two published
handles, in construction order, while the DynamoDB adapter never destroys
anything. -/
theorem release_policy (ε : Type) (config : ClientConfig) (reqId : Nat)
    (c : Context) (next : Next ε) :
    ((s3Middleware ε config reqId c next).result = Except.ok () →
      destroyedOf (s3Middleware ε config reqId c next).events
        = [mkS3 config reqId, mkS3Client config reqId])
  ∧ ((secretsManagerMiddleware ε config reqId c next).result = Except.ok () →
      destroyedOf (secretsManagerMiddleware ε config reqId c next).events
        = [mkSecretsManager config reqId, mkSecretsManagerClient config reqId])
  ∧ destroyedOf (dynamoDBMiddleware ε config reqId c next).events = [] := by
  refine ⟨?_, ?_, ?_⟩
  · intro hok
    rw [s3_events_of_ok ε config reqId c next hok]
    simp [destroyedOf]
  · intro hok
    rw [secretsManager_events_of_ok ε config reqId c next hok]
    simp [destroyedOf]
  · rw [dynamoDB_events]
    simp [destroyedOf]

/-- Witness for C2 at the empty configuration, request 0, the empty context
and a downstream stage that completes normally. -/
theorem release_policy_witness :
    destroyedOf (s3Middleware String emptyClientConfig 0 [] (okNext String)).events
      = [mkS3 emptyClientConfig 0, mkS3Client emptyClientConfig 0]
  ∧ destroyedOf (secretsManagerMiddleware String emptyClientConfig 0 [] (okNext String)).events
      = [mkSecretsManager emptyClientConfig 0, mkSecretsManagerClient emptyClientConfig 0]
  ∧ destroyedOf (dynamoDBMiddleware String emptyClientConfig 0 [] (okNext String)).events
      = [] :=
  ⟨(release_policy String emptyClientConfig 0 [] (okNext String)).1 (by rfl),
   (release_policy String emptyClientConfig 0 [] (okNext String)).2.1 (by rfl),
   (release_policy String emptyClientConfig 0 [] (okNext String)).2.2⟩

/-- C3: the adapters themselves never raise: each invocation returns, and
its outcome is exactly the outcome of the downstream stage on the context
the adapter passed to it, unmodified (ok propagates as ok, any thrown error
propagates as the same error); furthermore, when the downstream stage
throws, the S3 and Secrets Manager adapters never execute their destroy
step for that request. -/
theorem error_transparency (ε : Type) (config : ClientConfig) (reqId : Nat)
    (c : Context) (next : Next ε) :
    ((dynamoDBMiddleware ε config reqId c next).result
        = (next (dynamoDBMiddleware ε config reqId c next).ctxAtNext).2)
  ∧ ((s3Middleware ε config reqId c next).result
        = (next (s3Middleware ε config reqId c next).ctxAtNext).2)
  ∧ ((secretsManagerMiddleware ε config reqId c next).result
        = (next (secretsManagerMiddleware ε config reqId c next).ctxAtNext).2)
  ∧ (∀ e : ε, (s3Middleware ε config reqId c next).result = Except.error e →
      destroyedOf (s3Middleware ε config reqId c next).events = [])
  ∧ (∀ e : ε, (secretsManagerMiddleware ε config reqId c next).result = Except.error e →
      destroyedOf (secretsManagerMiddleware ε config reqId c next).events = []) := by
  refine ⟨dynamoDB_result ε config reqId c next, s3_result ε config reqId c next,
    secretsManager_result ε config reqId c next, ?_, ?_⟩
  · intro e herr
    rw [s3_events_of_error ε config reqId c next e herr]
    simp [destroyedOf]
  · intro e herr
    rw [secretsManager_events_of_error ε config reqId c next e herr]
    simp [destroyedOf]

/-- Witness for C3 at the empty configuration, request 0, the empty context
and a downstream stage that throws the string error boom. -/
theorem error_transparency_witness :
    destroyedOf (s3Middleware String emptyClientConfig 0 [] (failNext String "boom")).events
      = []
  ∧ destroyedOf (secretsManagerMiddleware String emptyClientConfig 0 [] (failNext String "boom")).events
      = [] :=
  ⟨(error_transparency String emptyClientConfig 0 [] (failNext String "boom")).2.2.2.1
      "boom" (by rfl),
   (error_transparency String emptyClientConfig 0 [] (failNext String "boom")).2.2.2.2
      "boom" (by rfl)⟩

/-- C4: each adapter only adds to the request context: every pre-existing
binding under a name other than its own two fixed names is unchanged in the
context it hands downstream; and with the three adapters for the three
different backends attached to the same route, after all publish steps the
context contains all six fixed names, each bound to the corresponding
handle. -/
theorem additive_context (ε : Type) (config cfgD cfgS cfgM : ClientConfig)
    (reqId : Nat) (c : Context) (next : Next ε) (name : String) :
    (name ≠ "DynamoDB" → name ≠ "DynamoDBClient" →
      ctxGet (dynamoDBMiddleware ε config reqId c next).ctxAtNext name = ctxGet c name)
  ∧ (name ≠ "S3" → name ≠ "S3Client" →
      ctxGet (s3Middleware ε config reqId c next).ctxAtNext name = ctxGet c name)
  ∧ (name ≠ "SecretsManager" → name ≠ "SecretsManagerClient" →
      ctxGet (secretsManagerMiddleware ε config reqId c next).ctxAtNext name = ctxGet c name)
  ∧ ctxGet (chain3 ε cfgD cfgS cfgM reqId c).ctx "DynamoDB"
      = some (mkDynamoDB cfgD reqId)
  ∧ ctxGet (chain3 ε cfgD cfgS cfgM reqId c).ctx "DynamoDBClient"
      = some (mkDynamoDBClient cfgD reqId)
  ∧ ctxGet (chain3 ε cfgD cfgS cfgM reqId c).ctx "S3"
      = some (mkS3 cfgS reqId)
  ∧ ctxGet (chain3 ε cfgD cfgS cfgM reqId c).ctx "S3Client"
      = some (mkS3Client cfgS reqId)
  ∧ ctxGet (chain3 ε cfgD cfgS cfgM reqId c).ctx "SecretsManager"
      = some (mkSecretsManager cfgM reqId)
  ∧ ctxGet (chain3 ε cfgD cfgS cfgM reqId c).ctx "SecretsManagerClient"
      = some (mkSecretsManagerClient cfgM reqId) := by
  refine ⟨?_, ?_, ?_, ?_, ?_, ?_, ?_, ?_, ?_⟩
  · intro h1 h2
    rw [dynamoDB_ctxAtNext, ctxGet_ctxSet_other _ _ _ _ h2, ctxGet_ctxSet_other _ _ _ _ h1]
  · intro h1 h2
    rw [s3_ctxAtNext, ctxGet_ctxSet_other _ _ _ _ h2, ctxGet_ctxSet_other _ _ _ _ h1]
  · intro h1 h2
    rw [secretsManager_ctxAtNext, ctxGet_ctxSet_other _ _ _ _ h2,
      ctxGet_ctxSet_other _ _ _ _ h1]
  · rw [chain3_ctx, ctxGet_ctxSet_other _ _ _ _ (by decide),
      ctxGet_ctxSet_other _ _ _ _ (by decide), ctxGet_ctxSet_other _ _ _ _ (by decide),
      ctxGet_ctxSet_other _ _ _ _ (by decide), ctxGet_ctxSet_other _ _ _ _ (by decide),
      ctxGet_ctxSet_same]
  · rw [chain3_ctx, ctxGet_ctxSet_other _ _ _ _ (by decide),
      ctxGet_ctxSet_other _ _ _ _ (by decide), ctxGet_ctxSet_other _ _ _ _ (by decide),
      ctxGet_ctxSet_other _ _ _ _ (by decide), ctxGet_ctxSet_same]
  · rw [chain3_ctx, ctxGet_ctxSet_other _ _ _ _ (by decide),
      ctxGet_ctxSet_other _ _ _ _ (by decide), ctxGet_ctxSet_other _ _ _ _ (by decide),
      ctxGet_ctxSet_same]
  · rw [chain3_ctx, ctxGet_ctxSet_other _ _ _ _ (by decide),
      ctxGet_ctxSet_other _ _ _ _ (by decide), ctxGet_ctxSet_same]
  · rw [chain3_ctx, ctxGet_ctxSet_other _ _ _ _ (by decide), ctxGet_ctxSet_same]
  · rw [chain3_ctx, ctxGet_ctxSet_same]

/-- Witness for C4 at a context holding a binding under the unrelated name
Other, which each adapter leaves untouched. -/
theorem additive_context_witness :
    ctxGet (dynamoDBMiddleware String emptyClientConfig 0
        [("Other", mkS3 emptyClientConfig 7)] (okNext String)).ctxAtNext "Other"
      = ctxGet [("Other", mkS3 emptyClientConfig 7)] "Other"
  ∧ ctxGet (s3Middleware String emptyClientConfig 0
        [("Other", mkS3 emptyClientConfig 7)] (okNext String)).ctxAtNext "Other"
      = ctxGet [("Other", mkS3 emptyClientConfig 7)] "Other"
  ∧ ctxGet (secretsManagerMiddleware String emptyClientConfig 0
        [("Other", mkS3 emptyClientConfig 7)] (okNext String)).ctxAtNext "Other"
      = ctxGet [("Other", mkS3 emptyClientConfig 7)] "Other" :=
  ⟨(additive_context String emptyClientConfig emptyClientConfig emptyClientConfig
      emptyClientConfig 0 [("Other", mkS3 emptyClientConfig 7)] (okNext String)
      "Other").1 (by decide) (by decide),
   (additive_context String emptyClientConfig emptyClientConfig emptyClientConfig
      emptyClientConfig 0 [("Other", mkS3 emptyClientConfig 7)] (okNext String)
      "Other").2.1 (by decide) (by decide),
   (additive_context String emptyClientConfig emptyClientConfig emptyClientConfig
      emptyClientConfig 0 [("Other", mkS3 emptyClientConfig 7)] (okNext String)
      "Other").2.2.1 (by decide) (by decide)⟩

/-- C5: handles are allocated fresh inside each per-request handler: for two
requests with different ids, no handle published by one invocation equals a
handle published by the other, for any of the three adapters; moreover,
starting from the fresh per-request context, every context entry visible
downstream was allocated by that same request. -/
theorem per_request_freshness (ε₁ ε₂ : Type) (cfg1 cfg2 : ClientConfig)
    (r1 r2 : Nat) (c1 c2 : Context) (n1 : Next ε₁) (n2 : Next ε₂)
    (hr : r1 ≠ r2) :
    (∀ h1 ∈ publishedOf (dynamoDBMiddleware ε₁ cfg1 r1 c1 n1).events,
       ∀ h2 ∈ publishedOf (dynamoDBMiddleware ε₂ cfg2 r2 c2 n2).events, h1 ≠ h2)
  ∧ (∀ h1 ∈ publishedOf (s3Middleware ε₁ cfg1 r1 c1 n1).events,
       ∀ h2 ∈ publishedOf (s3Middleware ε₂ cfg2 r2 c2 n2).events, h1 ≠ h2)
  ∧ (∀ h1 ∈ publishedOf (secretsManagerMiddleware ε₁ cfg1 r1 c1 n1).events,
       ∀ h2 ∈ publishedOf (secretsManagerMiddleware ε₂ cfg2 r2 c2 n2).events, h1 ≠ h2)
  ∧ (∀ name h, ctxGet (dynamoDBMiddleware ε₁ cfg1 r1 [] n1).ctxAtNext name = some h →
       h.reqId = r1)
  ∧ (∀ name h, ctxGet (s3Middleware ε₁ cfg1 r1 [] n1).ctxAtNext name = some h →
       h.reqId = r1)
  ∧ (∀ name h, ctxGet (secretsManagerMiddleware ε₁ cfg1 r1 [] n1).ctxAtNext name = some h →
       h.reqId = r1) := by
  have fresh : ∀ ha hb : Handle, ha.reqId = r1 → hb.reqId = r2 → ha ≠ hb := by
    intro ha hb e1 e2 hEq
    exact hr (by rw [← e1, hEq, e2])
  refine ⟨?_, ?_, ?_, ?_, ?_, ?_⟩
  · intro h1 hm1 h2 hm2
    rw [dynamoDB_published] at hm1 hm2
    simp only [List.mem_cons, List.not_mem_nil, or_false] at hm1 hm2
    rcases hm1 with rfl | rfl <;> rcases hm2 with rfl | rfl <;> exact fresh _ _ rfl rfl
  · intro h1 hm1 h2 hm2
    rw [s3_published] at hm1 hm2
    simp only [List.mem_cons, List.not_mem_nil, or_false] at hm1 hm2
    rcases hm1 with rfl | rfl <;> rcases hm2 with rfl | rfl <;> exact fresh _ _ rfl rfl
  · intro h1 hm1 h2 hm2
    rw [secretsManager_published] at hm1 hm2
    simp only [List.mem_cons, List.not_mem_nil, or_false] at hm1 hm2
    rcases hm1 with rfl | rfl <;> rcases hm2 with rfl | rfl <;> exact fresh _ _ rfl rfl
  · intro name h hg
    rw [dynamoDB_ctxAtNext] at hg
    have hm := ctxGet_mem _ _ _ hg
    simp only [ctxSet, List.mem_cons, List.not_mem_nil, or_false, Prod.mk.injEq] at hm
    rcases hm with ⟨-, rfl⟩ | ⟨-, rfl⟩ <;> rfl
  · intro name h hg
    rw [s3_ctxAtNext] at hg
    have hm := ctxGet_mem _ _ _ hg
    simp only [ctxSet, List.mem_cons, List.not_mem_nil, or_false, Prod.mk.injEq] at hm
    rcases hm with ⟨-, rfl⟩ | ⟨-, rfl⟩ <;> rfl
  · intro name h hg
    rw [secretsManager_ctxAtNext] at hg
    have hm := ctxGet_mem _ _ _ hg
    simp only [ctxSet, List.mem_cons, List.not_mem_nil, or_false, Prod.mk.injEq] at hm
    rcases hm with ⟨-, rfl⟩ | ⟨-, rfl⟩ <;> rfl

/-- Witness for C5 at request ids 0 and 1 with the empty configuration. -/
theorem per_request_freshness_witness :
    mkDynamoDB emptyClientConfig 0 ≠ mkDynamoDB emptyClientConfig 1
  ∧ mkS3 emptyClientConfig 0 ≠ mkS3 emptyClientConfig 1
  ∧ mkSecretsManager emptyClientConfig 0 ≠ mkSecretsManager emptyClientConfig 1
  ∧ (mkDynamoDB emptyClientConfig 0).reqId = 0
  ∧ (mkS3 emptyClientConfig 0).reqId = 0
  ∧ (mkSecretsManager emptyClientConfig 0).reqId = 0 :=
  ⟨(per_request_freshness String String emptyClientConfig emptyClientConfig 0 1 [] []
      (okNext String) (okNext String) (by decide)).1
      (mkDynamoDB emptyClientConfig 0) (by decide)
      (mkDynamoDB emptyClientConfig 1) (by decide),
   (per_request_freshness String String emptyClientConfig emptyClientConfig 0 1 [] []
      (okNext String) (okNext String) (by decide)).2.1
      (mkS3 emptyClientConfig 0) (by decide)
      (mkS3 emptyClientConfig 1) (by decide),
   (per_request_freshness String String emptyClientConfig emptyClientConfig 0 1 [] []
      (okNext String) (okNext String) (by decide)).2.2.1
      (mkSecretsManager emptyClientConfig 0) (by decide)
      (mkSecretsManager emptyClientConfig 1) (by decide),
   (per_request_freshness String String emptyClientConfig emptyClientConfig 0 1 [] []
      (okNext String) (okNext String) (by decide)).2.2.2.1
      "DynamoDB" (mkDynamoDB emptyClientConfig 0) (by decide),
   (per_request_freshness String String emptyClientConfig emptyClientConfig 0 1 [] []
      (okNext String) (okNext String) (by decide)).2.2.2.2.1
      "S3" (mkS3 emptyClientConfig 0) (by decide),
   (per_request_freshness String String emptyClientConfig emptyClientConfig 0 1 [] []
      (okNext String) (okNext String) (by decide)).2.2.2.2.2
      "SecretsManager" (mkSecretsManager emptyClientConfig 0) (by decide)⟩

/-- C6: each adapter publishes exactly the two handles it constructed from
its captured configuration, both built from that configuration unchanged;
in particular, when the configuration specifies region R, every published
handle of every adapter carries region R. -/
theorem config_threaded (ε : Type) (config : ClientConfig) (R : String)
    (reqId : Nat) (c : Context) (next : Next ε) :
    publishedOf (dynamoDBMiddleware ε config reqId c next).events
        = [mkDynamoDB config reqId, mkDynamoDBClient config reqId]
  ∧ publishedOf (s3Middleware ε config reqId c next).events
        = [mkS3 config reqId, mkS3Client config reqId]
  ∧ publishedOf (secretsManagerMiddleware ε config reqId c next).events
        = [mkSecretsManager config reqId, mkSecretsManagerClient config reqId]
  ∧ (∀ h ∈ publishedOf (dynamoDBMiddleware ε config reqId c next).events,
       h.config = config)
  ∧ (∀ h ∈ publishedOf (s3Middleware ε config reqId c next).events,
       h.config = config)
  ∧ (∀ h ∈ publishedOf (secretsManagerMiddleware ε config reqId c next).events,
       h.config = config)
  ∧ (config.region = some R →
      ∀ h, (h ∈ publishedOf (dynamoDBMiddleware ε config reqId c next).events
          ∨ h ∈ publishedOf (s3Middleware ε config reqId c next).events
          ∨ h ∈ publishedOf (secretsManagerMiddleware ε config reqId c next).events) →
        h.config.region = some R) := by
  have hd := dynamoDB_published ε config reqId c next
  have hs := s3_published ε config reqId c next
  have hm := secretsManager_published ε config reqId c next
  refine ⟨hd, hs, hm, ?_, ?_, ?_, ?_⟩
  · intro h hh
    rw [hd] at hh
    simp only [List.mem_cons, List.not_mem_nil, or_false] at hh
    rcases hh with rfl | rfl <;> rfl
  · intro h hh
    rw [hs] at hh
    simp only [List.mem_cons, List.not_mem_nil, or_false] at hh
    rcases hh with rfl | rfl <;> rfl
  · intro h hh
    rw [hm] at hh
    simp only [List.mem_cons, List.not_mem_nil, or_false] at hh
    rcases hh with rfl | rfl <;> rfl
  · intro hR h hh
    rcases hh with hh | hh | hh
    · rw [hd] at hh
      simp only [List.mem_cons, List.not_mem_nil, or_false] at hh
      rcases hh with rfl | rfl <;> exact hR
    · rw [hs] at hh
      simp only [List.mem_cons, List.not_mem_nil, or_false] at hh
      rcases hh with rfl | rfl <;> exact hR
    · rw [hm] at hh
      simp only [List.mem_cons, List.not_mem_nil, or_false] at hh
      rcases hh with rfl | rfl <;> exact hR

/-- Witness for C6 at a configuration specifying region ap-northeast-1. -/
theorem config_threaded_witness :
    (mkS3 (⟨some "ap-northeast-1", none⟩ : ClientConfig) 0).config
        = (⟨some "ap-northeast-1", none⟩ : ClientConfig)
  ∧ (mkDynamoDB (⟨some "ap-northeast-1", none⟩ : ClientConfig) 0).config.region
        = some "ap-northeast-1"
  ∧ (mkSecretsManagerClient (⟨some "ap-northeast-1", none⟩ : ClientConfig) 0).config.region
        = some "ap-northeast-1" :=
  ⟨(config_threaded String ⟨some "ap-northeast-1", none⟩ "ap-northeast-1" 0 []
      (okNext String)).2.2.2.2.1
      (mkS3 ⟨some "ap-northeast-1", none⟩ 0) (by decide),
   (config_threaded String ⟨some "ap-northeast-1", none⟩ "ap-northeast-1" 0 []
      (okNext String)).2.2.2.2.2.2 (by rfl)
      (mkDynamoDB ⟨some "ap-northeast-1", none⟩ 0) (Or.inl (by decide)),
   (config_threaded String ⟨some "ap-northeast-1", none⟩ "ap-northeast-1" 0 []
      (okNext String)).2.2.2.2.2.2 (by rfl)
      (mkSecretsManagerClient ⟨some "ap-northeast-1", none⟩ 0)
      (Or.inr (Or.inr (by decide)))⟩

/-- C7: within one invocation the steps occur in strict order — both
handles constructed, then both published, then `next()` invoked exactly
once, and only then (for the adapters that implement it, and only on normal
completion) both handles destroyed; in particular nothing is published
after `next()` and `next()` is never recorded more than once. -/
theorem invocation_order (ε : Type) (config : ClientConfig) (reqId : Nat)
    (c : Context) (next : Next ε) :
    ((s3Middleware ε config reqId c next).result = Except.ok () →
      (s3Middleware ε config reqId c next).events
        = [Event.create (mkS3 config reqId), Event.create (mkS3Client config reqId),
           Event.setVar "S3" (mkS3 config reqId),
           Event.setVar "S3Client" (mkS3Client config reqId),
           Event.callNext, Event.destroy (mkS3 config reqId),
           Event.destroy (mkS3Client config reqId)])
  ∧ (∀ e : ε, (s3Middleware ε config reqId c next).result = Except.error e →
      (s3Middleware ε config reqId c next).events
        = [Event.create (mkS3 config reqId), Event.create (mkS3Client config reqId),
           Event.setVar "S3" (mkS3 config reqId),
           Event.setVar "S3Client" (mkS3Client config reqId),
           Event.callNext])
  ∧ ((secretsManagerMiddleware ε config reqId c next).result = Except.ok () →
      (secretsManagerMiddleware ε config reqId c next).events
        = [Event.create (mkSecretsManager config reqId),
           Event.create (mkSecretsManagerClient config reqId),
           Event.setVar "SecretsManager" (mkSecretsManager config reqId),
           Event.setVar "SecretsManagerClient" (mkSecretsManagerClient config reqId),
           Event.callNext, Event.destroy (mkSecretsManager config reqId),
           Event.destroy (mkSecretsManagerClient config reqId)])
  ∧ (∀ e : ε, (secretsManagerMiddleware ε config reqId c next).result = Except.error e →
      (secretsManagerMiddleware ε config reqId c next).events
        = [Event.create (mkSecretsManager config reqId),
           Event.create (mkSecretsManagerClient config reqId),
           Event.setVar "SecretsManager" (mkSecretsManager config reqId),
           Event.setVar "SecretsManagerClient" (mkSecretsManagerClient config reqId),
           Event.callNext])
  ∧ ((dynamoDBMiddleware ε config reqId c next).events
        = [Event.create (mkDynamoDB config reqId),
           Event.create (mkDynamoDBClient config reqId),
           Event.setVar "DynamoDB" (mkDynamoDB config reqId),
           Event.setVar "DynamoDBClient" (mkDynamoDBClient config reqId),
           Event.callNext])
  ∧ callNextCount (s3Middleware ε config reqId c next).events = 1
  ∧ callNextCount (secretsManagerMiddleware ε config reqId c next).events = 1
  ∧ callNextCount (dynamoDBMiddleware ε config reqId c next).events = 1 := by
  refine ⟨s3_events_of_ok ε config reqId c next,
    fun e => s3_events_of_error ε config reqId c next e,
    secretsManager_events_of_ok ε config reqId c next,
    fun e => secretsManager_events_of_error ε config reqId c next e,
    dynamoDB_events ε config reqId c next, ?_, ?_, ?_⟩
  · rcases hn : next (ctxSet (ctxSet c "S3" (mkS3 config reqId))
        "S3Client" (mkS3Client config reqId)) with ⟨c3, r⟩
    cases r <;> simp [s3Middleware, hn, callNextCount]
  · rcases hn : next (ctxSet (ctxSet c "SecretsManager" (mkSecretsManager config reqId))
        "SecretsManagerClient" (mkSecretsManagerClient config reqId)) with ⟨c3, r⟩
    cases r <;> simp [secretsManagerMiddleware, hn, callNextCount]
  · rw [dynamoDB_events]
    simp [callNextCount]

/-- Witness for C7 at the empty configuration: the full trace of the S3
adapter for a normally completing downstream stage, and its trace for a
throwing downstream stage. -/
theorem invocation_order_witness :
    (s3Middleware String emptyClientConfig 0 [] (okNext String)).events
      = [Event.create (mkS3 emptyClientConfig 0),
         Event.create (mkS3Client emptyClientConfig 0),
         Event.setVar "S3" (mkS3 emptyClientConfig 0),
         Event.setVar "S3Client" (mkS3Client emptyClientConfig 0),
         Event.callNext, Event.destroy (mkS3 emptyClientConfig 0),
         Event.destroy (mkS3Client emptyClientConfig 0)]
  ∧ (s3Middleware String emptyClientConfig 0 [] (failNext String "boom")).events
      = [Event.create (mkS3 emptyClientConfig 0),
         Event.create (mkS3Client emptyClientConfig 0),
         Event.setVar "S3" (mkS3 emptyClientConfig 0),
         Event.setVar "S3Client" (mkS3Client emptyClientConfig 0),
         Event.callNext]
  ∧ (secretsManagerMiddleware String emptyClientConfig 0 [] (okNext String)).events
      = [Event.create (mkSecretsManager emptyClientConfig 0),
         Event.create (mkSecretsManagerClient emptyClientConfig 0),
         Event.setVar "SecretsManager" (mkSecretsManager emptyClientConfig 0),
         Event.setVar "SecretsManagerClient" (mkSecretsManagerClient emptyClientConfig 0),
         Event.callNext, Event.destroy (mkSecretsManager emptyClientConfig 0),
         Event.destroy (mkSecretsManagerClient emptyClientConfig 0)]
  ∧ (secretsManagerMiddleware String emptyClientConfig 0 [] (failNext String "boom")).events
      = [Event.create (mkSecretsManager emptyClientConfig 0),
         Event.create (mkSecretsManagerClient emptyClientConfig 0),
         Event.setVar "SecretsManager" (mkSecretsManager emptyClientConfig 0),
         Event.setVar "SecretsManagerClient" (mkSecretsManagerClient emptyClientConfig 0),
         Event.callNext] :=
  ⟨(invocation_order String emptyClientConfig 0 [] (okNext String)).1 (by rfl),
   (invocation_order String emptyClientConfig 0 [] (failNext String "boom")).2.1
      "boom" (by rfl),
   (invocation_order String emptyClientConfig 0 [] (okNext String)).2.2.1 (by rfl),
   (invocation_order String emptyClientConfig 0 [] (failNext String "boom")).2.2.2.1
      "boom" (by rfl)⟩

/-- C8: each factory's configuration parameter defaults to the empty
configuration: the factory called with no argument is the factory called
with the empty configuration, and its published handles are then built from
the empty configuration. -/
theorem default_arg (ε : Type) (reqId : Nat) (c : Context) (next : Next ε) :
    dynamoDBMiddlewareNoArg ε reqId c next
        = dynamoDBMiddleware ε emptyClientConfig reqId c next
  ∧ s3MiddlewareNoArg ε reqId c next
        = s3Middleware ε emptyClientConfig reqId c next
  ∧ secretsManagerMiddlewareNoArg ε reqId c next
        = secretsManagerMiddleware ε emptyClientConfig reqId c next
  ∧ (∀ h ∈ publishedOf (dynamoDBMiddlewareNoArg ε reqId c next).events,
       h.config = emptyClientConfig)
  ∧ (∀ h ∈ publishedOf (s3MiddlewareNoArg ε reqId c next).events,
       h.config = emptyClientConfig)
  ∧ (∀ h ∈ publishedOf (secretsManagerMiddlewareNoArg ε reqId c next).events,
       h.config = emptyClientConfig) := by
  have hd : publishedOf (dynamoDBMiddlewareNoArg ε reqId c next).events
      = [mkDynamoDB emptyClientConfig reqId, mkDynamoDBClient emptyClientConfig reqId] :=
    dynamoDB_published ε emptyClientConfig reqId c next
  have hs : publishedOf (s3MiddlewareNoArg ε reqId c next).events
      = [mkS3 emptyClientConfig reqId, mkS3Client emptyClientConfig reqId] :=
    s3_published ε emptyClientConfig reqId c next
  have hm : publishedOf (secretsManagerMiddlewareNoArg ε reqId c next).events
      = [mkSecretsManager emptyClientConfig reqId,
         mkSecretsManagerClient emptyClientConfig reqId] :=
    secretsManager_published ε emptyClientConfig reqId c next
  refine ⟨rfl, rfl, rfl, ?_, ?_, ?_⟩
  · intro h hh
    rw [hd] at hh
    simp only [List.mem_cons, List.not_mem_nil, or_false] at hh
    rcases hh with rfl | rfl <;> rfl
  · intro h hh
    rw [hs] at hh
    simp only [List.mem_cons, List.not_mem_nil, or_false] at hh
    rcases hh with rfl | rfl <;> rfl
  · intro h hh
    rw [hm] at hh
    simp only [List.mem_cons, List.not_mem_nil, or_false] at hh
    rcases hh with rfl | rfl <;> rfl

/-- Witness for C8 at request 0, the empty context and a normally completing
downstream stage. -/
theorem default_arg_witness :
    (mkDynamoDB emptyClientConfig 0).config = emptyClientConfig
  ∧ (mkS3 emptyClientConfig 0).config = emptyClientConfig
  ∧ (mkSecretsManager emptyClientConfig 0).config = emptyClientConfig :=
  ⟨(default_arg String 0 [] (okNext String)).2.2.2.1
      (mkDynamoDB emptyClientConfig 0) (by decide),
   (default_arg String 0 [] (okNext String)).2.2.2.2.1
      (mkS3 emptyClientConfig 0) (by decide),
   (default_arg String 0 [] (okNext String)).2.2.2.2.2
      (mkSecretsManager emptyClientConfig 0) (by decide)⟩

/-- C9: when the downstream stage throws, the adapter performs no rollback:
the context it leaves behind is exactly the context as the downstream stage
left it, and the two entries the adapter published were in the context the
downstream stage observed. -/
theorem no_rollback_on_error (ε : Type) (config : ClientConfig) (reqId : Nat)
    (c : Context) (next : Next ε) (e : ε) :
    ((dynamoDBMiddleware ε config reqId c next).result = Except.error e →
        (dynamoDBMiddleware ε config reqId c next).ctx
            = (next (dynamoDBMiddleware ε config reqId c next).ctxAtNext).1
      ∧ ctxGet (dynamoDBMiddleware ε config reqId c next).ctxAtNext "DynamoDB"
            = some (mkDynamoDB config reqId)
      ∧ ctxGet (dynamoDBMiddleware ε config reqId c next).ctxAtNext "DynamoDBClient"
            = some (mkDynamoDBClient config reqId))
  ∧ ((s3Middleware ε config reqId c next).result = Except.error e →
        (s3Middleware ε config reqId c next).ctx
            = (next (s3Middleware ε config reqId c next).ctxAtNext).1
      ∧ ctxGet (s3Middleware ε config reqId c next).ctxAtNext "S3"
            = some (mkS3 config reqId)
      ∧ ctxGet (s3Middleware ε config reqId c next).ctxAtNext "S3Client"
            = some (mkS3Client config reqId))
  ∧ ((secretsManagerMiddleware ε config reqId c next).result = Except.error e →
        (secretsManagerMiddleware ε config reqId c next).ctx
            = (next (secretsManagerMiddleware ε config reqId c next).ctxAtNext).1
      ∧ ctxGet (secretsManagerMiddleware ε config reqId c next).ctxAtNext "SecretsManager"
            = some (mkSecretsManager config reqId)
      ∧ ctxGet (secretsManagerMiddleware ε config reqId c next).ctxAtNext "SecretsManagerClient"
            = some (mkSecretsManagerClient config reqId)) := by
  refine ⟨fun _ => ⟨dynamoDB_ctx ε config reqId c next, ?_, ?_⟩,
    fun _ => ⟨s3_ctx ε config reqId c next, ?_, ?_⟩,
    fun _ => ⟨secretsManager_ctx ε config reqId c next, ?_, ?_⟩⟩
  · rw [dynamoDB_ctxAtNext, ctxGet_ctxSet_other _ _ _ _ (by decide), ctxGet_ctxSet_same]
  · rw [dynamoDB_ctxAtNext, ctxGet_ctxSet_same]
  · rw [s3_ctxAtNext, ctxGet_ctxSet_other _ _ _ _ (by decide), ctxGet_ctxSet_same]
  · rw [s3_ctxAtNext, ctxGet_ctxSet_same]
  · rw [secretsManager_ctxAtNext, ctxGet_ctxSet_other _ _ _ _ (by decide),
      ctxGet_ctxSet_same]
  · rw [secretsManager_ctxAtNext, ctxGet_ctxSet_same]

/-- Witness for C9: with a downstream stage that throws boom while leaving
the context alone, the published entries are still present in the context
each adapter leaves behind. -/
theorem no_rollback_on_error_witness :
    ctxGet (dynamoDBMiddleware String emptyClientConfig 0 [] (failNext String "boom")).ctx
        "DynamoDB" = some (mkDynamoDB emptyClientConfig 0)
  ∧ ctxGet (s3Middleware String emptyClientConfig 0 [] (failNext String "boom")).ctx
        "S3" = some (mkS3 emptyClientConfig 0)
  ∧ ctxGet (secretsManagerMiddleware String emptyClientConfig 0 [] (failNext String "boom")).ctx
        "SecretsManager" = some (mkSecretsManager emptyClientConfig 0) := by
  have hd := (no_rollback_on_error String emptyClientConfig 0 []
    (failNext String "boom") "boom").1 (by rfl)
  have hs := (no_rollback_on_error String emptyClientConfig 0 []
    (failNext String "boom") "boom").2.1 (by rfl)
  have hm := (no_rollback_on_error String emptyClientConfig 0 []
    (failNext String "boom") "boom").2.2 (by rfl)
  refine ⟨?_, ?_, ?_⟩
  · rw [hd.1]
    exact hd.2.1
  · rw [hs.1]
    exact hs.2.1
  · rw [hm.1]
    exact hm.2.1

/-- C10: after the S3 or Secrets Manager adapter completes normally, the
adapter has destroyed its two handles yet never unset their context
entries: the context it hands back is exactly the downstream stage's
context, and the entries it published named exactly the handles that were
destroyed. -/
theorem destroyed_handles_remain (ε : Type) (config : ClientConfig) (reqId : Nat)
    (c : Context) (next : Next ε) :
    ((s3Middleware ε config reqId c next).result = Except.ok () →
        (s3Middleware ε config reqId c next).ctx
            = (next (s3Middleware ε config reqId c next).ctxAtNext).1
      ∧ destroyedOf (s3Middleware ε config reqId c next).events
            = [mkS3 config reqId, mkS3Client config reqId]
      ∧ ctxGet (s3Middleware ε config reqId c next).ctxAtNext "S3"
            = some (mkS3 config reqId)
      ∧ ctxGet (s3Middleware ε config reqId c next).ctxAtNext "S3Client"
            = some (mkS3Client config reqId))
  ∧ ((secretsManagerMiddleware ε config reqId c next).result = Except.ok () →
        (secretsManagerMiddleware ε config reqId c next).ctx
            = (next (secretsManagerMiddleware ε config reqId c next).ctxAtNext).1
      ∧ destroyedOf (secretsManagerMiddleware ε config reqId c next).events
            = [mkSecretsManager config reqId, mkSecretsManagerClient config reqId]
      ∧ ctxGet (secretsManagerMiddleware ε config reqId c next).ctxAtNext "SecretsManager"
            = some (mkSecretsManager config reqId)
      ∧ ctxGet (secretsManagerMiddleware ε config reqId c next).ctxAtNext "SecretsManagerClient"
            = some (mkSecretsManagerClient config reqId)) := by
  constructor
  · intro hok
    refine ⟨s3_ctx ε config reqId c next, ?_, ?_, ?_⟩
    · rw [s3_events_of_ok ε config reqId c next hok]
      simp [destroyedOf]
    · rw [s3_ctxAtNext, ctxGet_ctxSet_other _ _ _ _ (by decide), ctxGet_ctxSet_same]
    · rw [s3_ctxAtNext, ctxGet_ctxSet_same]
  · intro hok
    refine ⟨secretsManager_ctx ε config reqId c next, ?_, ?_, ?_⟩
    · rw [secretsManager_events_of_ok ε config reqId c next hok]
      simp [destroyedOf]
    · rw [secretsManager_ctxAtNext, ctxGet_ctxSet_other _ _ _ _ (by decide),
        ctxGet_ctxSet_same]
    · rw [secretsManager_ctxAtNext, ctxGet_ctxSet_same]

/-- Witness for C10: after normal completion with a context-preserving
downstream stage, the final context still retrieves the destroyed S3 and
Secrets Manager handles under their fixed names. -/
theorem destroyed_handles_remain_witness :
    ctxGet (s3Middleware String emptyClientConfig 0 [] (okNext String)).ctx "S3"
        = some (mkS3 emptyClientConfig 0)
  ∧ mkS3 emptyClientConfig 0
      ∈ destroyedOf (s3Middleware String emptyClientConfig 0 [] (okNext String)).events
  ∧ ctxGet (secretsManagerMiddleware String emptyClientConfig 0 [] (okNext String)).ctx
        "SecretsManager" = some (mkSecretsManager emptyClientConfig 0)
  ∧ mkSecretsManager emptyClientConfig 0
      ∈ destroyedOf (secretsManagerMiddleware String emptyClientConfig 0 [] (okNext String)).events := by
  have h1 := (destroyed_handles_remain String emptyClientConfig 0 [] (okNext String)).1 (by rfl)
  have h2 := (destroyed_handles_remain String emptyClientConfig 0 [] (okNext String)).2 (by rfl)
  refine ⟨?_, ?_, ?_, ?_⟩
  · rw [h1.1]
    exact h1.2.2.1
  · rw [h1.2.1]
    exact List.mem_cons_self _ _
  · rw [h2.1]
    exact h2.2.2.1
  · rw [h2.2.1]
    exact List.mem_cons_self _ _

end HonoAws
